import Mathlib

/-!
Shallow embedding of `src/yamm/maps/nx/readers/tomtom_readers.py`.

Conventions of the embedding:
* pandas/numpy floats are modelled as exact rationals (`ℚ`); decimal literals
  such as `0.00001` denote the exact rational value;
* a pandas column that may hold NaN is modelled as `Option ℚ` (`none` = NaN),
  and `fillna` is explicit;
* raising a Python exception is modelled as returning `Except.error` carrying
  the exception class and message;
* a networkx `MultiDiGraph` is modelled as an explicit node list (insertion
  order, no duplicates once built by `mkGraph`) plus a list of keyed edges;
  adding an edge whose `(src, dst, key)` triple already exists updates the
  attribute data of the existing edge in place, as networkx does;
* SQL acquisition, spatial filtering and coordinate reprojection are external
  collaborators (spec §1); the records they produce are taken as input, and
  `to_crs` is modelled as updating the recorded CRS descriptor (no claim
  inspects reprojected coordinate values).
-/

/-- A geometry coordinate, the `(x, y)` of one point of a `LineString`. -/
abbrev Coord := ℚ × ℚ

/-- Python exception values surfaced by the reader (class + message). -/
inductive PyError where
  /-- `yamm.utils.exceptions.MapException` -/
  | mapException (msg : String)
  /-- built-in `TypeError` -/
  | typeError (msg : String)
  /-- built-in `ValueError` -/
  | valueError (msg : String)
deriving DecidableEq, Repr

/-- Message of the empty-dataframe `MapException` (lines 73 and 115). -/
def noLinksMsg : String := "road network has no links; check geofence boundaries"

/-- Message of the not-routable `MapException` (lines 240-243 and 368-371). -/
def notRoutableMsg : String :=
  "road network has no strongly connected components and is not routable; check polygon boundaries."

/-- Message of the `ValueError` Python raises for `max` of an empty sequence. -/
def maxEmptyMsg : String := "max arg is an empty sequence"

/-- Message of the geofence-CRS `TypeError` (lines 29-31); the f-string
interpolation of the offending CRS is elided. -/
def crsMsg : String := "the geofence must in the epsg:4326 crs"

/-- Message of the unsupported-vintage `TypeError` (lines 40-42); the f-string
interpolation of the offending vintage is elided. -/
def vintageMsg : String := "vintage not supported; must be either 2021 or 2017"

/-- Constant `yamm.utils.crs.LATLON_CRS`, the epsg:4326 descriptor. The module
`yamm/utils/crs.py` is not under `src/`; modelled from the spec as an opaque
coordinate-reference descriptor value. -/
def LATLON_CRS : String := "epsg:4326"

/-- Constant `yamm.utils.crs.XY_CRS`, the projected descriptor used when `xy=True`.
The module `yamm/utils/crs.py` is not under `src/`; modelled from the spec as
an opaque coordinate-reference descriptor value distinct from `LATLON_CRS`. -/
def XY_CRS : String := "epsg:3857"

/-- One directed multigraph edge `(u, v, key, attribute-dict)` as passed to
`MultiDiGraph.add_edges_from`. The attribute dict always holds exactly the
four data keys `kilometers`, `minutes`, `geom`, `road_id`; `road_id` is an
`int` (`netw_id`) in the 2021 variant and a `str` in the 2017 variant, hence
the type parameter. -/
structure Edge (α : Type) where
  src : ℤ
  dst : ℤ
  key : ℤ
  kilometers : ℚ
  minutes : ℚ
  geom : List Coord
  road_id : α
deriving DecidableEq, Repr

/-- The graph-level attribute dict entries written at lines 247-252 / 375-380. -/
structure GraphMeta where
  crs : String
  distance_weight : String
  time_weight : String
  geometry_key : String
  road_id_key : String
deriving DecidableEq, Repr

/-- A networkx `MultiDiGraph`: node list (insertion order), keyed edge list,
and the graph-level attribute dict (`none` until the tagging step fills it). -/
structure NxGraph (α : Type) where
  nodeList : List ℤ
  edges : List (Edge α)
  graphAttrs : Option GraphMeta
deriving DecidableEq, Repr

/-- Insert a node if not yet present (networkx `add_node` behaviour). -/
def addNode (ns : List ℤ) (n : ℤ) : List ℤ :=
  if n ∈ ns then ns else ns ++ [n]

/-- Register both endpoints of an edge as nodes (`add_edge` adds `u` then `v`). -/
def addEdgeNodes (ns : List ℤ) (e : Edge α) : List ℤ :=
  addNode (addNode ns e.src) e.dst

/-- Insert one keyed edge: a collision on `(src, dst, key)` replaces the
attribute data of the existing edge in place, otherwise the edge is appended. -/
def addEdge (es : List (Edge α)) (e : Edge α) : List (Edge α) :=
  if es.any (fun e2 => e2.src == e.src && e2.dst == e.dst && e2.key == e.key) then
    es.map (fun e2 =>
      if e2.src == e.src && e2.dst == e.dst && e2.key == e.key then e else e2)
  else
    es ++ [e]

/-- Build `G = nx.MultiDiGraph(); G.add_edges_from(es)` (lines 231-235 / 359-363). -/
def mkGraph (es : List (Edge α)) : NxGraph α :=
  ⟨es.foldl addEdgeNodes [], es.foldl addEdge [], none⟩

/-- Raw TomTom 2021 Multinet record as produced by the external SQL/spatial
collaborator (the columns consumed by `get_tomtom_gdf_2021` and
`tomtom_gdf_to_nx_graph_2021`). -/
structure Raw2021 where
  junction_id_from : ℤ
  junction_id_to : ℤ
  netw_id : ℤ
  simple_traffic_direction : ℤ
  speed_average_neg : Option ℚ
  speed_average_pos : Option ℚ
  centimeters : ℚ
  geom : List Coord
deriving DecidableEq, Repr

/-- A 2021 record after the derived columns of `get_tomtom_gdf_2021`
(lines 78-83) have been added. -/
structure Row2021 where
  junction_id_from : ℤ
  junction_id_to : ℤ
  netw_id : ℤ
  simple_traffic_direction : ℤ
  speed_average_neg : ℚ
  speed_average_pos : ℚ
  centimeters : ℚ
  kilometers : ℚ
  neg_minutes : ℚ
  pos_minutes : ℚ
  geom : List Coord
deriving DecidableEq, Repr

/-- pandas `Series.fillna(d)`: replace a missing value (NaN) by `d`; a present value,
including `0`, is kept. -/
def fillna (d : ℚ) : Option ℚ → ℚ
  | none => d
  | some x => x

/-- Lines 78-83: fill missing speeds with 20, derive `kilometers`,
`neg_minutes` and `pos_minutes`. (pandas float division by zero yields `inf`;
in this rational model `q / 0 = 0` — no theorem below depends on the concrete
value at a zero divisor, only on it differing from the defaulted formula.) -/
def derive2021 (r : Raw2021) : Row2021 :=
  let san := fillna 20 r.speed_average_neg
  let sap := fillna 20 r.speed_average_pos
  let km := r.centimeters * 0.00001
  ⟨r.junction_id_from, r.junction_id_to, r.netw_id, r.simple_traffic_direction,
    san, sap, r.centimeters, km, (km / san) * 60, (km / sap) * 60, r.geom⟩

/-- The geo dataframe handed from `get_tomtom_gdf_*` to the graph builder:
its CRS descriptor plus the record rows. -/
structure Gdf2021 where
  crs : String
  rows : List Row2021
deriving DecidableEq, Repr

/-- Function `get_tomtom_gdf_2021` (lines 47-88), after the external SQL query has
produced `raw`: raise on an empty dataframe, default the dataframe CRS to
lat/lon when the database supplied none, derive the speed/time columns, and
reproject to `XY_CRS` when `xy` is set. -/
def get_tomtom_gdf_2021 (raw : List Raw2021) (dbCrs : Option String) (xy : Bool) :
    Except PyError Gdf2021 :=
  if raw = [] then
    Except.error (PyError.mapException noLinksMsg)
  else
    let crs0 := dbCrs.getD LATLON_CRS
    let crs1 := if xy then XY_CRS else crs0
    Except.ok ⟨crs1, raw.map derive2021⟩

/-- Raw TomTom 2017 Multinet record: the columns pulled by the SQL query of
`get_tomtom_gdf_2017` (lines 103-108). The `int` coercions of lines 263-265
are taken as already applied to `id`, `f_jnctid`, `t_jnctid`; columns that may
hold NaN are `Option`s. `privaterd` and `roughrd` are pulled but never read,
and the `f_lon`/`f_lat`/`t_lon`/`t_lat` columns of lines 266-269 are derived
but never read, so they are omitted. -/
structure Raw2017 where
  id : ℤ
  f_jnctid : ℤ
  t_jnctid : ℤ
  frc : Option ℚ
  rdcond : Option ℚ
  meters : Option ℚ
  minutes : Option ℚ
  oneway : Option String
  wkb_geometry : List Coord
deriving DecidableEq, Repr

/-- A 2017 record after the filter and `fillna(0)` of line 122: remaining
missing numeric fields are zero-filled (`fillna(0)` turns a NaN in the object
column `oneway` into the number `0`, which is neither `"FT"` nor `"TF"`; that
is modelled by keeping `none`, which the direction split likewise sends to the
two-way bucket). -/
structure Row2017 where
  id : ℤ
  f_jnctid : ℤ
  t_jnctid : ℤ
  kilometers : ℚ
  minutes : ℚ
  oneway : Option String
  wkb_geometry : List Coord
deriving DecidableEq, Repr

/-- pandas comparison of a possibly-NaN value with a constant: NaN compares
false. -/
def ltOpt (o : Option ℚ) (c : ℚ) : Bool :=
  match o with
  | none => false
  | some x => decide (x < c)

/-- The row filter of line 122: `(rdcond < 2) & (frc < 8)`. -/
def keep2017 (r : Raw2017) : Bool :=
  ltOpt r.rdcond 2 && ltOpt r.frc 8

/-- Line 120 (`kilometers = meters / 1000`) followed by the `fillna(0)` of
line 122 applied to the surviving row. -/
def fill2017 (r : Raw2017) : Row2017 :=
  ⟨r.id, r.f_jnctid, r.t_jnctid, fillna 0 (r.meters.map (· / 1000)),
    fillna 0 r.minutes, r.oneway, r.wkb_geometry⟩

/-- The geo dataframe produced by `get_tomtom_gdf_2017`. -/
structure Gdf2017 where
  crs : String
  rows : List Row2017
deriving DecidableEq, Repr

/-- Function `get_tomtom_gdf_2017` (lines 91-127): raise on an empty raw dataframe,
default the CRS, derive `kilometers`, filter on road condition and functional
road class, zero-fill what remains, and reproject when `xy` is set. Note the
emptiness check precedes the filter: a nonempty raw set whose rows are all
filtered out is returned as an empty dataframe without error. -/
def get_tomtom_gdf_2017 (raw : List Raw2017) (dbCrs : Option String) (xy : Bool) :
    Except PyError Gdf2017 :=
  if raw = [] then
    Except.error (PyError.mapException noLinksMsg)
  else
    let crs0 := dbCrs.getD LATLON_CRS
    let crs1 := if xy then XY_CRS else crs0
    Except.ok ⟨crs1, (raw.filter keep2017).map fill2017⟩

/-- Line 140: `gdf[gdf.simple_traffic_direction == 2]`. -/
def onewayFt2021 (rows : List Row2021) : List Row2021 :=
  rows.filter (fun r => r.simple_traffic_direction == 2)

/-- Line 141: `gdf[gdf.simple_traffic_direction == 3]`. -/
def onewayTf2021 (rows : List Row2021) : List Row2021 :=
  rows.filter (fun r => r.simple_traffic_direction == 3)

/-- Line 142: `gdf[gdf.simple_traffic_direction.isin([1, 9])]`. -/
def twoway2021 (rows : List Row2021) : List Row2021 :=
  rows.filter (fun r => r.simple_traffic_direction == 1 || r.simple_traffic_direction == 9)

/-- One element of `twoway_edges_tf` (lines 144-164): the synthesized backward
copy of a two-way 2021 record — note its key is `nid`, the same `netw_id` the
forward copy uses. -/
def twowayTfEdge2021 (r : Row2021) : Edge ℤ :=
  ⟨r.junction_id_to, r.junction_id_from, r.netw_id,
    r.kilometers, r.neg_minutes, r.geom.reverse, r.netw_id⟩

/-- One element of `twoway_edges_ft` (lines 166-186): the forward copy of a
two-way 2021 record. -/
def twowayFtEdge2021 (r : Row2021) : Edge ℤ :=
  ⟨r.junction_id_from, r.junction_id_to, r.netw_id,
    r.kilometers, r.pos_minutes, r.geom, r.netw_id⟩

/-- One element of `oneway_edges_ft` (lines 188-208). -/
def onewayFtEdge2021 (r : Row2021) : Edge ℤ :=
  ⟨r.junction_id_from, r.junction_id_to, r.netw_id,
    r.kilometers, r.pos_minutes, r.geom, r.netw_id⟩

/-- One element of `oneway_edges_tf` (lines 209-229): a backward-only 2021
record, geometry reversed, `neg_minutes` as time. -/
def onewayTfEdge2021 (r : Row2021) : Edge ℤ :=
  ⟨r.junction_id_to, r.junction_id_from, r.netw_id,
    r.kilometers, r.neg_minutes, r.geom.reverse, r.netw_id⟩

/-- The two directed edges a two-way (direction `Both`) 2021 record
contributes to the graph: one via the `twoway_edges_tf` comprehension and one
via `twoway_edges_ft` (the code builds the two lists bucket-wise; per record
the contribution is exactly this pair). -/
def edgesOfBoth2021 (r : Row2021) : List (Edge ℤ) :=
  [twowayTfEdge2021 r, twowayFtEdge2021 r]

/-- Line 270: `gdf[gdf.oneway == "FT"]`. -/
def onewayFt2017 (rows : List Row2017) : List Row2017 :=
  rows.filter (fun r => r.oneway == some "FT")

/-- Line 271: `gdf[gdf.oneway == "TF"]`. -/
def onewayTf2017 (rows : List Row2017) : List Row2017 :=
  rows.filter (fun r => r.oneway == some "TF")

/-- Line 272: `gdf[~(gdf.oneway == "FT") & ~(gdf.oneway == "TF")]` — every
record whose direction string is neither `"FT"` nor `"TF"` (including
unrecognized strings and filled-in NaNs) lands in the two-way bucket. -/
def twoway2017 (rows : List Row2017) : List Row2017 :=
  rows.filter (fun r => !(r.oneway == some "FT") && !(r.oneway == some "TF"))

/-- One element of `twoway_edges_tf` (lines 274-294): the synthesized backward
copy of a two-way 2017 record, keyed by the negated id `-k`, with
`road_id = str(-k)`. -/
def twowayTfEdge2017 (r : Row2017) : Edge String :=
  ⟨r.t_jnctid, r.f_jnctid, -r.id,
    r.kilometers, r.minutes, r.wkb_geometry.reverse, toString (-r.id)⟩

/-- One element of `twoway_edges_ft` (lines 295-315): the forward copy of a
two-way 2017 record, keyed by the id `k`, with `road_id = str(k)`. -/
def twowayFtEdge2017 (r : Row2017) : Edge String :=
  ⟨r.f_jnctid, r.t_jnctid, r.id,
    r.kilometers, r.minutes, r.wkb_geometry, toString r.id⟩

/-- One element of `oneway_edges_ft` (lines 316-336). -/
def onewayFtEdge2017 (r : Row2017) : Edge String :=
  ⟨r.f_jnctid, r.t_jnctid, r.id,
    r.kilometers, r.minutes, r.wkb_geometry, toString r.id⟩

/-- One element of `oneway_edges_tf` (lines 337-357): a backward-only 2017
record, geometry reversed, key `-k`. -/
def onewayTfEdge2017 (r : Row2017) : Edge String :=
  ⟨r.t_jnctid, r.f_jnctid, -r.id,
    r.kilometers, r.minutes, r.wkb_geometry.reverse, toString (-r.id)⟩

/-- The two directed edges a two-way 2017 record contributes to the graph. -/
def edgesOfBoth2017 (r : Row2017) : List (Edge String) :=
  [twowayTfEdge2017 r, twowayFtEdge2017 r]

/-! ### Strongly connected components

`nx.strongly_connected_components` is networkx library code (not under
`src/`); it is modelled by its documented contract: it yields, once each, the
strongly connected components of the graph as node sets. Here a component is
computed as the set of nodes mutually reachable with a representative, with
reachability obtained by saturating a successor set. -/

/-- The node set of a graph (networkx nodes are a set; `mkGraph` already
produces a duplicate-free list, `dedup` makes this hold for any value). -/
def gnodes (g : NxGraph α) : List ℤ := g.nodeList.dedup

/-- Boolean edge test: is there an edge from `a` to `b`? -/
def hasEdge (g : NxGraph α) (a b : ℤ) : Bool :=
  g.edges.any (fun e => e.src == a && e.dst == b)

/-- The step relation of the directed multigraph: some edge goes `a → b`. -/
def gstep (g : NxGraph α) (a b : ℤ) : Prop :=
  ∃ e, e ∈ g.edges ∧ e.src = a ∧ e.dst = b

/-- Nodes of the graph that succeed some member of `R` and are not yet in
`R`. -/
def newFrontier (g : NxGraph α) (R : List ℤ) : List ℤ :=
  (gnodes g).filter (fun b => !(R.elem b) && R.any (fun a => hasEdge g a b))

/-- Saturate `R` under graph successors, with enough fuel to reach a
fixpoint. -/
def stepClosureAux (g : NxGraph α) : ℕ → List ℤ → List ℤ
  | 0, R => R
  | n + 1, R =>
    if newFrontier g R = [] then R else stepClosureAux g n (R ++ newFrontier g R)

/-- All nodes reachable from `a` (including `a`). -/
def reachSet (g : NxGraph α) (a : ℤ) : List ℤ :=
  stepClosureAux g (gnodes g).length [a]

/-- Decidable reachability. -/
def reachb (g : NxGraph α) (a b : ℤ) : Bool :=
  (reachSet g a).elem b

/-- The strongly connected component of representative `u`: all nodes mutually
reachable with `u`. -/
def sccOf (g : NxGraph α) (u : ℤ) : List ℤ :=
  (gnodes g).filter (fun v => reachb g u v && reachb g v u)

/-- Append a component unless it was already collected. -/
def insertComp (acc : List (List ℤ)) (c : List ℤ) : List (List ℤ) :=
  if c ∈ acc then acc else acc ++ [c]

/-- Keep the first occurrence of each component (the generator yields each
component once). -/
def dedupComponents : List (List ℤ) → List (List ℤ) :=
  fun l => l.foldl insertComp []

/-- Library call `nx.strongly_connected_components(G)`, as the list of components. -/
def strongly_connected_components (g : NxGraph α) : List (List ℤ) :=
  dedupComponents ((gnodes g).map (sccOf g))

/-- Python `max(components, key=len)`: Python's `max` keeps the first element of
maximal length and raises `ValueError` on an empty sequence (`none` here). -/
def maxComponent : List (List ℤ) → Option (List ℤ)
  | [] => none
  | c :: cs => some (cs.foldl (fun best x => if best.length < x.length then x else best) c)

/-- Call `G.subgraph(C)` followed by the `nx.MultiDiGraph(...)` copy (line 245 /
373): the induced subgraph on the nodes of `C` present in `G`, retaining
exactly the edges with both endpoints in `C`. -/
def inducedSubgraph (g : NxGraph α) (C : List ℤ) : NxGraph α :=
  ⟨C.filter (fun v => g.nodeList.elem v),
    g.edges.filter (fun e => C.elem e.src && C.elem e.dst),
    none⟩

/-- Truthiness of the Python generator object returned by
`nx.strongly_connected_components`: a generator object is truthy regardless of
what it would yield, so `not sg_components` at line 239 / 367 is always
`False`. -/
def generatorTruthy : Bool := true

/-- Lines 237-245 / 365-373 (the spec's `ConnectivityReducer.reduce`): compute
the strongly connected components, test the (always-truthy) generator, and
keep the induced subgraph of the largest component. When there are no
components at all, Python's `max` raises `ValueError`, not the `MapException`
of the dead branch. -/
def connectivityReduce (g : NxGraph α) : Except PyError (NxGraph α) :=
  let comps := strongly_connected_components g
  if generatorTruthy = false then
    Except.error (PyError.mapException notRoutableMsg)
  else
    match maxComponent comps with
    | none => Except.error (PyError.valueError maxEmptyMsg)
    | some c => Except.ok (inducedSubgraph g c)

/-- Lines 247-252 / 375-380 (the spec's `GraphMetadataTagger`): write the CRS
descriptor and the four field-name keys into the graph-level attribute dict. -/
def tagGraph (crs : String) (g : NxGraph α) : NxGraph α :=
  ⟨g.nodeList, g.edges, some ⟨crs, "kilometers", "minutes", "geom", "road_id"⟩⟩

/-- The edge stream assembled and inserted at lines 231-235. -/
def edges2021 (rows : List Row2021) : List (Edge ℤ) :=
  ((twoway2021 rows).map twowayTfEdge2021)
    ++ ((twoway2021 rows).map twowayFtEdge2021)
    ++ ((onewayFt2021 rows).map onewayFtEdge2021)
    ++ ((onewayTf2021 rows).map onewayTfEdge2021)

/-- Function `tomtom_gdf_to_nx_graph_2021` (lines 130-253): bucket the rows by
direction code, expand to directed edges, build the multigraph, reduce to the
largest strongly connected component, and tag the graph metadata. -/
def tomtom_gdf_to_nx_graph_2021 (gdf : Gdf2021) : Except PyError (NxGraph ℤ) :=
  match connectivityReduce (mkGraph (edges2021 gdf.rows)) with
  | Except.error e => Except.error e
  | Except.ok g => Except.ok (tagGraph gdf.crs g)

/-- The edge stream assembled and inserted at lines 359-363. -/
def edges2017 (rows : List Row2017) : List (Edge String) :=
  ((twoway2017 rows).map twowayTfEdge2017)
    ++ ((twoway2017 rows).map twowayFtEdge2017)
    ++ ((onewayFt2017 rows).map onewayFtEdge2017)
    ++ ((onewayTf2017 rows).map onewayTfEdge2017)

/-- Function `tomtom_gdf_to_nx_graph_2017` (lines 256-381). -/
def tomtom_gdf_to_nx_graph_2017 (gdf : Gdf2017) : Except PyError (NxGraph String) :=
  match connectivityReduce (mkGraph (edges2017 gdf.rows)) with
  | Except.error e => Except.error e
  | Except.ok g => Except.ok (tagGraph gdf.crs g)

/-- The `vintage` argument, `Union[int, str]`. -/
inductive Vintage where
  | int (n : ℤ)
  | str (s : String)
deriving DecidableEq, Repr

/-- The graph produced by either variant (`NxMap` is a wrapper class outside
`src/`; the claims only concern whether a graph is produced). -/
inductive TomTomGraph where
  | g2021 (g : NxGraph ℤ)
  | g2017 (g : NxGraph String)
deriving DecidableEq, Repr

/-- Function `read_tomtom_nxmap_from_sql` (lines 13-44). The database contents the two
variant queries would return are passed in as `db2021` / `db2017` with their
stored CRS descriptors, since SQL acquisition is an external collaborator.
The geofence CRS is checked against `LATLON_CRS` before any vintage dispatch;
Python's `vintage == "2021"` is an exact value comparison, so the integer
`2021` also falls through to the `TypeError` branch. -/
def read_tomtom_nxmap_from_sql (db2021 : List Raw2021) (db2017 : List Raw2017)
    (db2021Crs db2017Crs : Option String) (geofenceCrs : String)
    (vintage : Vintage) (xy : Bool) : Except PyError TomTomGraph :=
  if geofenceCrs ≠ LATLON_CRS then
    Except.error (PyError.typeError crsMsg)
  else if vintage = Vintage.str "2021" then
    match get_tomtom_gdf_2021 db2021 db2021Crs xy with
    | Except.error e => Except.error e
    | Except.ok gdf =>
      match tomtom_gdf_to_nx_graph_2021 gdf with
      | Except.error e => Except.error e
      | Except.ok g => Except.ok (TomTomGraph.g2021 g)
  else if vintage = Vintage.str "2017" then
    match get_tomtom_gdf_2017 db2017 db2017Crs xy with
    | Except.error e => Except.error e
    | Except.ok gdf =>
      match tomtom_gdf_to_nx_graph_2017 gdf with
      | Except.error e => Except.error e
      | Except.ok g => Except.ok (TomTomGraph.g2017 g)
  else
    Except.error (PyError.typeError vintageMsg)

/-! ### Concrete inputs used to evaluate the pipeline -/

/-- A 2021 row carrying the unrecognized direction code 5 (recognized codes
are 1, 2, 3, 9). -/
def row5 : Row2021 := ⟨1, 2, 10, 5, 20, 20, 100, 1/1000, 3/1000, 3/1000, [(0, 0), (1, 1)]⟩

/-- A 2021 row carrying the unrecognized direction code 0. -/
def row0 : Row2021 := ⟨3, 4, 11, 0, 20, 20, 100, 1/1000, 3/1000, 3/1000, [(0, 0), (1, 1)]⟩

/-- A one-row 2021 dataframe whose only record is dropped by the direction
split, so the built graph has no edges (and hence no nodes). -/
def gdfDir5 : Gdf2021 := ⟨LATLON_CRS, [row5]⟩

/-- A two-way (direction code 1, i.e. `Both`) 2021 row with distinct
endpoints and `netw_id = 7`. -/
def rBothK7 : Row2021 := ⟨1, 2, 7, 1, 30, 40, 100000, 1, 2, 3/2, [(0, 0), (1, 1)]⟩

/-- A two-way 2017 row (`oneway` neither `"FT"` nor `"TF"`) with `id = 4`. -/
def s17both : Row2017 := ⟨4, 1, 2, 1, 5, some "NA", [(0, 0), (1, 1)]⟩

/-- A 2017 row with the unrecognized direction string `"XY"`. -/
def sXY : Row2017 := ⟨9, 1, 2, 1, 5, some "XY", [(0, 0), (1, 1)]⟩

/-- A 2017 row whose direction string is missing (NaN). -/
def sNone : Row2017 := ⟨12, 1, 2, 1, 5, none, [(0, 0), (1, 1)]⟩

/-- A raw 2021 record with both speed columns missing (NaN). -/
def rawMissing : Raw2021 := ⟨1, 2, 7, 1, none, none, 100000, [(0, 0), (1, 1)]⟩

/-- A raw 2021 record with a present speed of exactly 0 in the positive
direction (1 km long, so the defaulted formula would give 3 minutes). -/
def rawZero : Raw2021 := ⟨1, 2, 7, 1, some 50, some 0, 100000, [(0, 0), (1, 1)]⟩

/-- A raw 2017 record with `rdcond = 2`, which the road-condition filter
(`rdcond < 2`) removes. -/
def rawBadCond : Raw2017 := ⟨4, 1, 2, some 3, some 2, some 1000, some 5, some "FT", [(0, 0), (1, 1)]⟩

/-- A raw 2017 record that survives the filter. -/
def rawOk17 : Raw2017 := ⟨4, 1, 2, some 3, some 1, some 1000, some 5, some "FT", [(0, 0), (1, 1)]⟩

/-- Edge 1 → 2 of the small example graph. -/
def e12 : Edge ℤ := ⟨1, 2, 5, 1, 3, [], 5⟩

/-- Edge 2 → 1 of the small example graph. -/
def e21 : Edge ℤ := ⟨2, 1, -5, 1, 4, [], -5⟩

/-- Edge 2 → 3 of the small example graph (3 is a dead end). -/
def e23 : Edge ℤ := ⟨2, 3, 7, 2, 5, [], 7⟩

/-- A small graph whose largest strongly connected component is the 2-cycle
on nodes 1, 2, with a dangling edge into node 3. -/
def g0 : NxGraph ℤ := mkGraph [e12, e21, e23]

/-- The value `connectivityReduce` returns on `g0`: the induced subgraph on
the winning component. -/
def g0red : NxGraph ℤ := ⟨[1, 2], [e12, e21], none⟩

/-! ### Correctness of the reachability saturation -/

lemma hasEdge_iff {α : Type} {g : NxGraph α} {a b : ℤ} :
    hasEdge g a b = true ↔ gstep g a b := by
  simp [hasEdge, gstep, List.any_eq_true, and_assoc]

lemma subset_stepClosureAux {α : Type} (g : NxGraph α) :
    ∀ (n : ℕ) (R : List ℤ), R ⊆ stepClosureAux g n R := by
  intro n
  induction n with
  | zero => intro R; simp [stepClosureAux]
  | succ n ih =>
    intro R
    simp only [stepClosureAux]
    split
    · exact fun _ h => h
    · exact (List.subset_append_left _ _).trans (ih _)

lemma stepClosureAux_sound {α : Type} (g : NxGraph α) (a : ℤ) :
    ∀ (n : ℕ) (R : List ℤ), (∀ x ∈ R, Relation.ReflTransGen (gstep g) a x) →
      ∀ b ∈ stepClosureAux g n R, Relation.ReflTransGen (gstep g) a b := by
  intro n
  induction n with
  | zero => intro R hR; simpa [stepClosureAux] using hR
  | succ n ih =>
    intro R hR
    simp only [stepClosureAux]
    split
    · exact hR
    · apply ih
      intro x hx
      rcases List.mem_append.1 hx with h | h
      · exact hR x h
      · rcases List.mem_filter.1 h with ⟨_, hpred⟩
        rw [Bool.and_eq_true] at hpred
        rcases List.any_eq_true.1 hpred.2 with ⟨y, hyR, hy⟩
        exact (hR y hyR).tail (hasEdge_iff.1 hy)

/-- Predicate: `F` is closed under taking graph successors. -/
def closedUnder {α : Type} (g : NxGraph α) (F : List ℤ) : Prop :=
  ∀ b ∈ gnodes g, (∃ x ∈ F, gstep g x b) → b ∈ F

lemma closed_of_newFrontier_nil {α : Type} {g : NxGraph α} {R : List ℤ}
    (h : newFrontier g R = []) : closedUnder g R := by
  rintro b hb ⟨x, hxR, hstep⟩
  by_contra hbR
  have hmem : b ∈ newFrontier g R := by
    refine List.mem_filter.2 ⟨hb, ?_⟩
    rw [Bool.and_eq_true]
    refine ⟨?_, List.any_eq_true.2 ⟨x, hxR, hasEdge_iff.2 hstep⟩⟩
    simp [List.elem_iff, hbR]
  rw [h] at hmem
  exact absurd hmem (List.not_mem_nil b)

lemma stepClosureAux_closed {α : Type} (g : NxGraph α) :
    ∀ (n : ℕ) (R : List ℤ), R.Nodup → R ⊆ gnodes g →
      (gnodes g).length ≤ n + R.length →
      closedUnder g (stepClosureAux g n R) := by
  intro n
  induction n with
  | zero =>
    intro R hnd hsub hlen
    have hperm : List.Perm R (gnodes g) :=
      (hnd.subperm hsub).perm_of_length_le (by simpa using hlen)
    intro b hb _
    exact hperm.symm.subset hb
  | succ n ih =>
    intro R hnd hsub hlen
    simp only [stepClosureAux]
    split
    case isTrue h => exact closed_of_newFrontier_nil h
    case isFalse h =>
      apply ih
      · refine hnd.append ((List.nodup_dedup _).filter _) ?_
        intro a haR hanew
        have hp := (List.mem_filter.1 hanew).2
        rw [Bool.and_eq_true] at hp
        have : ¬ a ∈ R := by simpa [List.elem_iff] using hp.1
        exact this haR
      · intro x hx
        rcases List.mem_append.1 hx with hx | hx
        · exact hsub hx
        · exact (List.mem_filter.1 hx).1
      · have h1 : 0 < (newFrontier g R).length := List.length_pos.2 h
        rw [List.length_append]
        omega

lemma closedUnder_complete {α : Type} {g : NxGraph α} {F : List ℤ}
    (hw : ∀ e ∈ g.edges, e.src ∈ g.nodeList ∧ e.dst ∈ g.nodeList)
    (hcl : closedUnder g F) {a : ℤ} (ha : a ∈ F) {b : ℤ}
    (h : Relation.ReflTransGen (gstep g) a b) : b ∈ F := by
  induction h with
  | refl => exact ha
  | tail _ hstep ih =>
    rcases hstep with ⟨e, heg, hesrc, hedst⟩
    refine hcl _ ?_ ⟨_, ih, ⟨e, heg, hesrc, hedst⟩⟩
    exact List.mem_dedup.2 (hedst ▸ (hw e heg).2)

lemma reachb_sound {α : Type} {g : NxGraph α} {a b : ℤ}
    (h : reachb g a b = true) : Relation.ReflTransGen (gstep g) a b := by
  refine stepClosureAux_sound g a (gnodes g).length [a] ?_ b ?_
  · intro x hx
    rcases List.mem_singleton.1 hx with rfl
    exact Relation.ReflTransGen.refl
  · simpa [reachb, reachSet, List.elem_iff] using h

lemma mem_reachSet_self {α : Type} (g : NxGraph α) (a : ℤ) : a ∈ reachSet g a :=
  subset_stepClosureAux g (gnodes g).length [a] (List.mem_singleton.2 rfl)

lemma reachb_complete {α : Type} {g : NxGraph α}
    (hw : ∀ e ∈ g.edges, e.src ∈ g.nodeList ∧ e.dst ∈ g.nodeList)
    {a b : ℤ} (ha : a ∈ g.nodeList)
    (h : Relation.ReflTransGen (gstep g) a b) : reachb g a b = true := by
  have hcl : closedUnder g (reachSet g a) := by
    refine stepClosureAux_closed g (gnodes g).length [a] (List.nodup_singleton a) ?_ ?_
    · intro x hx
      rcases List.mem_singleton.1 hx with rfl
      exact List.mem_dedup.2 ha
    · simp
  have hb : b ∈ reachSet g a := closedUnder_complete hw hcl (mem_reachSet_self g a) h
  simpa [reachb, List.elem_iff] using hb

/-! ### From components to strong connectivity of the reduced graph -/

lemma mem_sccOf_iff {α : Type} {g : NxGraph α} {u v : ℤ} :
    v ∈ sccOf g u ↔ v ∈ gnodes g ∧ reachb g u v = true ∧ reachb g v u = true := by
  simp [sccOf, List.mem_filter]

lemma foldl_insertComp_subset :
    ∀ (l acc : List (List ℤ)), (l.foldl insertComp acc) ⊆ acc ++ l := by
  intro l
  induction l with
  | nil => intro acc; simp
  | cons x xs ih =>
    intro acc
    simp only [List.foldl_cons, insertComp]
    split
    · refine (ih acc).trans ?_
      intro y hy
      rcases List.mem_append.1 hy with h | h
      · exact List.mem_append.2 (Or.inl h)
      · exact List.mem_append.2 (Or.inr (List.mem_cons_of_mem x h))
    · refine (ih (acc ++ [x])).trans ?_
      intro y hy
      rcases List.mem_append.1 hy with h | h
      · rcases List.mem_append.1 h with h | h
        · exact List.mem_append.2 (Or.inl h)
        · rcases List.mem_singleton.1 h with rfl
          exact List.mem_append.2 (Or.inr (List.mem_cons_self _ _))
      · exact List.mem_append.2 (Or.inr (List.mem_cons_of_mem x h))

lemma dedupComponents_subset (l : List (List ℤ)) : dedupComponents l ⊆ l := by
  have := foldl_insertComp_subset l []
  simpa [dedupComponents] using this

lemma scc_components_mem {α : Type} {g : NxGraph α} {c : List ℤ}
    (h : c ∈ strongly_connected_components g) :
    ∃ u, u ∈ gnodes g ∧ c = sccOf g u := by
  have hc : c ∈ (gnodes g).map (sccOf g) := dedupComponents_subset _ h
  rcases List.mem_map.1 hc with ⟨u, hu, rfl⟩
  exact ⟨u, hu, rfl⟩

lemma foldl_max_mem :
    ∀ (cs : List (List ℤ)) (best : List ℤ),
      (cs.foldl (fun best x => if best.length < x.length then x else best) best) = best ∨
      (cs.foldl (fun best x => if best.length < x.length then x else best) best) ∈ cs := by
  intro cs
  induction cs with
  | nil => intro best; exact Or.inl rfl
  | cons x xs ih =>
    intro best
    simp only [List.foldl_cons]
    rcases ih (if best.length < x.length then x else best) with h | h
    · rw [h]
      split
      · exact Or.inr (List.mem_cons_self _ _)
      · exact Or.inl rfl
    · exact Or.inr (List.mem_cons_of_mem x h)

lemma maxComponent_mem {l : List (List ℤ)} {c : List ℤ}
    (h : maxComponent l = some c) : c ∈ l := by
  match l, h with
  | x :: xs, h =>
    have hc : xs.foldl (fun best y => if best.length < y.length then y else best) x = c := by
      simpa [maxComponent] using h
    rcases foldl_max_mem xs x with h2 | h2
    · rw [hc] at h2
      exact h2 ▸ List.mem_cons_self _ _
    · rw [hc] at h2
      exact List.mem_cons_of_mem x h2

lemma gstep_induced {α : Type} {g : NxGraph α} {C : List ℤ} {a b : ℤ} :
    gstep (inducedSubgraph g C) a b ↔ gstep g a b ∧ a ∈ C ∧ b ∈ C := by
  constructor
  · rintro ⟨e, he, rfl, rfl⟩
    rcases List.mem_filter.1 he with ⟨heg, hps⟩
    rw [Bool.and_eq_true] at hps
    exact ⟨⟨e, heg, rfl, rfl⟩, by simpa [List.elem_iff] using hps.1,
      by simpa [List.elem_iff] using hps.2⟩
  · rintro ⟨⟨e, he, rfl, rfl⟩, haC, hbC⟩
    refine ⟨e, List.mem_filter.2 ⟨he, ?_⟩, rfl, rfl⟩
    rw [Bool.and_eq_true]
    exact ⟨by simpa [List.elem_iff] using haC, by simpa [List.elem_iff] using hbC⟩

lemma rtg_mem_nodeList {α : Type} {g : NxGraph α}
    (hw : ∀ e ∈ g.edges, e.src ∈ g.nodeList ∧ e.dst ∈ g.nodeList)
    {a b : ℤ} (h : Relation.ReflTransGen (gstep g) a b) :
    b = a ∨ b ∈ g.nodeList := by
  induction h with
  | refl => exact Or.inl rfl
  | tail _ hstep _ =>
    rcases hstep with ⟨e, heg, _, hedst⟩
    exact Or.inr (hedst ▸ (hw e heg).2)

/-- Mutual reachability in `g`. -/
def Mut {α : Type} (g : NxGraph α) (u x : ℤ) : Prop :=
  Relation.ReflTransGen (gstep g) u x ∧ Relation.ReflTransGen (gstep g) x u

/-- Any path between two nodes of a strongly connected component can be taken
inside the induced subgraph on any superset `C` of the mutual-reachability
class: every intermediate node of the path is itself mutually reachable with
the endpoints. -/
lemma restricted_path {α : Type} {g : NxGraph α} {C : List ℤ} {u : ℤ}
    (hmem : ∀ x, Mut g u x → x ∈ C) :
    ∀ {a v : ℤ}, Relation.ReflTransGen (gstep g) a v → Mut g u a → Mut g u v →
      Relation.ReflTransGen (gstep (inducedSubgraph g C)) a v := by
  intro a v hav
  induction hav using Relation.ReflTransGen.head_induction_on with
  | refl => intro _ _; exact Relation.ReflTransGen.refl
  | head hstep hcv ih =>
    intro hua huv
    rename_i a' c
    have huc : Mut g u c := ⟨hua.1.tail hstep, Relation.ReflTransGen.trans hcv huv.2⟩
    have hstep' : gstep (inducedSubgraph g C) a' c :=
      gstep_induced.2 ⟨hstep, hmem _ hua, hmem _ huc⟩
    exact Relation.ReflTransGen.head hstep' (ih huc huv)

lemma connectivityReduce_ok {α : Type} {g G' : NxGraph α}
    (h : connectivityReduce g = Except.ok G') :
    ∃ c, maxComponent (strongly_connected_components g) = some c ∧
      G' = inducedSubgraph g c := by
  unfold connectivityReduce at h
  simp only [generatorTruthy] at h
  rcases hm : maxComponent (strongly_connected_components g) with _ | c
  · rw [hm] at h
    exact absurd h (by simp)
  · rw [hm] at h
    exact ⟨c, rfl, (Except.ok.inj h).symm⟩

/-- C5: after connectivity reduction, every ordered pair of retained nodes is
joined by a directed path inside the returned graph, and every retained edge
has both endpoints among the retained nodes. (`hw` is the networkx invariant
that every edge endpoint is a node of the graph, which holds for every graph
`mkGraph` builds.) -/
theorem c5_strong_connectivity {α : Type} (g G' : NxGraph α)
    (hw : ∀ e ∈ g.edges, e.src ∈ g.nodeList ∧ e.dst ∈ g.nodeList)
    (h : connectivityReduce g = Except.ok G')
    (u v : ℤ) (hu : u ∈ G'.nodeList) (hv : v ∈ G'.nodeList) :
    Relation.ReflTransGen (gstep G') u v ∧
      ∀ e ∈ G'.edges, e.src ∈ G'.nodeList ∧ e.dst ∈ G'.nodeList := by
  obtain ⟨c, hm, rfl⟩ := connectivityReduce_ok h
  obtain ⟨w, hwg, rfl⟩ := scc_components_mem (maxComponent_mem hm)
  have hu' : u ∈ sccOf g w := (List.mem_filter.1 hu).1
  have hv' : v ∈ sccOf g w := (List.mem_filter.1 hv).1
  obtain ⟨hug, hwu, huw⟩ := mem_sccOf_iff.1 hu'
  obtain ⟨hvg, hwv, hvw⟩ := mem_sccOf_iff.1 hv'
  have Rwu := reachb_sound hwu
  have Ruw := reachb_sound huw
  have Rwv := reachb_sound hwv
  have Rvw := reachb_sound hvw
  have hwnode : w ∈ g.nodeList := List.mem_dedup.1 hwg
  have hmem : ∀ x, Mut g u x → x ∈ sccOf g w := by
    intro x hx
    have Rwx : Relation.ReflTransGen (gstep g) w x := Rwu.trans hx.1
    have Rxw : Relation.ReflTransGen (gstep g) x w := hx.2.trans Ruw
    have hxnode : x ∈ g.nodeList := by
      rcases rtg_mem_nodeList hw Rwx with rfl | hxn
      · exact hwnode
      · exact hxn
    exact mem_sccOf_iff.2 ⟨List.mem_dedup.2 hxnode,
      reachb_complete hw hwnode Rwx, reachb_complete hw hxnode Rxw⟩
  have hMuv : Mut g u v := ⟨Ruw.trans Rwv, Rvw.trans Rwu⟩
  have hMuu : Mut g u u := ⟨Relation.ReflTransGen.refl, Relation.ReflTransGen.refl⟩
  refine ⟨restricted_path hmem hMuv.1 hMuu hMuv, ?_⟩
  intro e he
  rcases List.mem_filter.1 he with ⟨heg, hps⟩
  rw [Bool.and_eq_true] at hps
  constructor
  · refine List.mem_filter.2 ⟨by simpa [List.elem_iff] using hps.1, ?_⟩
    simpa [List.elem_iff] using (hw e heg).1
  · refine List.mem_filter.2 ⟨by simpa [List.elem_iff] using hps.2, ?_⟩
    simpa [List.elem_iff] using (hw e heg).2

/-! ### Claim theorems -/

/-- C1: on a built graph with no edges the connectivity-reduction step is
claimed to raise the not-routable `MapException`; what the code actually does
is raise Python's `ValueError` from `max` of the empty component sequence,
because `if not sg_components:` tests the truthiness of a generator object
(always truthy), making the `MapException` branch dead code. Evaluated here at
a one-row 2021 dataframe whose record is dropped by the direction split, so
that the built graph has no edges. -/
theorem c1_no_edge_graph_raises_value_error :
    edges2021 gdfDir5.rows = [] ∧
    tomtom_gdf_to_nx_graph_2021 gdfDir5 =
      Except.error (PyError.valueError maxEmptyMsg) ∧
    ∀ m₁ m₂ : String, PyError.valueError m₁ ≠ PyError.mapException m₂ := by
  refine ⟨rfl, rfl, ?_⟩
  intro m₁ m₂ h
  cases h

/-- C2 (counterexample to the claim as stated): a two-way 2021 record with
distinct endpoints expands to exactly 2 directed edges, but their keys are
equal — both are the record's `netw_id`; the 2021 variant does not negate or
otherwise distinguish the backward key. -/
theorem c2_keys_equal_counterexample :
    (edgesOfBoth2021 rBothK7).length = 2 ∧
    (twowayTfEdge2021 rBothK7).src ≠ (twowayTfEdge2021 rBothK7).dst ∧
    (twowayTfEdge2021 rBothK7).key = (twowayFtEdge2021 rBothK7).key := by
  decide

/-- C2 (amended): a direction-`Both` record expands to exactly 2 edges whose
(from, to) pairs are mutual reverses in both variants; the synthesized
backward key is the negated road id only in the 2017 variant (distinct from
the forward key whenever the id is nonzero), while in the 2021 variant both
edges carry the same key (the `netw_id`). -/
theorem c2_both_expansion (r : Row2021) (s : Row2017) (hs : s.id ≠ 0) :
    (edgesOfBoth2021 r).length = 2 ∧
    (twowayTfEdge2021 r).src = (twowayFtEdge2021 r).dst ∧
    (twowayTfEdge2021 r).dst = (twowayFtEdge2021 r).src ∧
    (twowayTfEdge2021 r).key = (twowayFtEdge2021 r).key ∧
    (edgesOfBoth2017 s).length = 2 ∧
    (twowayTfEdge2017 s).src = (twowayFtEdge2017 s).dst ∧
    (twowayTfEdge2017 s).dst = (twowayFtEdge2017 s).src ∧
    (twowayTfEdge2017 s).key = -((twowayFtEdge2017 s).key) ∧
    (twowayTfEdge2017 s).key ≠ (twowayFtEdge2017 s).key := by
  refine ⟨rfl, rfl, rfl, rfl, rfl, rfl, rfl, rfl, ?_⟩
  simp only [twowayTfEdge2017, twowayFtEdge2017]
  omega

/-- Witness for C2 at concrete two-way records of both variants. -/
theorem c2_both_expansion_witness :
    (edgesOfBoth2021 rBothK7).length = 2 ∧
    (twowayTfEdge2021 rBothK7).src = (twowayFtEdge2021 rBothK7).dst ∧
    (twowayTfEdge2021 rBothK7).dst = (twowayFtEdge2021 rBothK7).src ∧
    (twowayTfEdge2021 rBothK7).key = (twowayFtEdge2021 rBothK7).key ∧
    (edgesOfBoth2017 s17both).length = 2 ∧
    (twowayTfEdge2017 s17both).src = (twowayFtEdge2017 s17both).dst ∧
    (twowayTfEdge2017 s17both).dst = (twowayFtEdge2017 s17both).src ∧
    (twowayTfEdge2017 s17both).key = -((twowayFtEdge2017 s17both).key) ∧
    (twowayTfEdge2017 s17both).key ≠ (twowayFtEdge2017 s17both).key :=
  c2_both_expansion rBothK7 s17both (by decide)

/-- C3 (counterexample to the claim as stated): a nonempty raw 2017 set whose
only record is removed by the road-condition filter is returned as an empty
dataframe with no error — the emptiness check precedes the filter, so the
empty-input error is not raised when filtering empties the set. -/
theorem c3_filtered_empty_no_error :
    get_tomtom_gdf_2017 [rawBadCond] none false = Except.ok ⟨LATLON_CRS, []⟩ := by
  rfl

/-- C3 (amended): normalization fails with the empty-input `MapException`
when the raw record sequence is empty, in both variants; a nonempty raw 2017
sequence never raises, even when the variant filter leaves no records. -/
theorem c3_empty_input_error (dbCrs : Option String) (xy : Bool)
    (raw : List Raw2017) (hne : raw ≠ []) :
    get_tomtom_gdf_2021 [] dbCrs xy = Except.error (PyError.mapException noLinksMsg) ∧
    get_tomtom_gdf_2017 [] dbCrs xy = Except.error (PyError.mapException noLinksMsg) ∧
    ∃ gdf, get_tomtom_gdf_2017 raw dbCrs xy = Except.ok gdf := by
  refine ⟨rfl, rfl, ?_⟩
  unfold get_tomtom_gdf_2017
  rw [if_neg hne]
  exact ⟨_, rfl⟩

/-- Witness for C3 at a concrete nonempty raw set. -/
theorem c3_empty_input_error_witness :
    get_tomtom_gdf_2021 [] none true = Except.error (PyError.mapException noLinksMsg) ∧
    get_tomtom_gdf_2017 [] none true = Except.error (PyError.mapException noLinksMsg) ∧
    ∃ gdf, get_tomtom_gdf_2017 [rawOk17] none true = Except.ok gdf :=
  c3_empty_input_error none true [rawOk17] (List.cons_ne_nil _ _)

/-- C4 (counterexample to the claim as stated): a record with a present speed
of exactly 0 is not defaulted to 20 — `fillna` replaces only missing values —
so its derived time is not `(distance_km / 20) * 60` (the Python computation
divides by zero, producing `inf`, likewise not that value). -/
theorem c4_zero_speed_not_defaulted :
    (derive2021 rawZero).speed_average_pos = 0 ∧
    (derive2021 rawZero).speed_average_pos ≠ 20 ∧
    (derive2021 rawZero).pos_minutes ≠ ((derive2021 rawZero).kilometers / 20) * 60 := by
  refine ⟨rfl, ?_, ?_⟩ <;> norm_num [derive2021, fillna, rawZero]

/-- C4 (amended): a record whose speed is missing is defaulted to 20 before
time derivation and produces `time = (distance_km / 20) * 60`; a record with
a present speed of 0 keeps speed 0 (the default applies to missing values
only). -/
theorem c4_missing_speed_default (r : Raw2021) :
    (r.speed_average_pos = none →
      (derive2021 r).pos_minutes = ((derive2021 r).kilometers / 20) * 60) ∧
    (r.speed_average_neg = none →
      (derive2021 r).neg_minutes = ((derive2021 r).kilometers / 20) * 60) ∧
    (r.speed_average_pos = some 0 → (derive2021 r).speed_average_pos = 0) := by
  refine ⟨?_, ?_, ?_⟩ <;> intro h <;> simp [derive2021, fillna, h]

/-- Witness for C4 at records with missing and with zero speeds. -/
theorem c4_missing_speed_default_witness :
    (derive2021 rawMissing).pos_minutes = ((derive2021 rawMissing).kilometers / 20) * 60 ∧
    (derive2021 rawMissing).neg_minutes = ((derive2021 rawMissing).kilometers / 20) * 60 ∧
    (derive2021 rawZero).speed_average_pos = 0 :=
  ⟨(c4_missing_speed_default rawMissing).1 rfl,
   (c4_missing_speed_default rawMissing).2.1 rfl,
   (c4_missing_speed_default rawZero).2.2 rfl⟩

/-- Witness for C5: on the small graph `g0` the reducer keeps the 2-cycle
component and drops the dead-end node, and the retained pair is joined by a
path. -/
theorem c5_strong_connectivity_witness :
    Relation.ReflTransGen (gstep g0red) 1 2 ∧
      ∀ e ∈ g0red.edges, e.src ∈ g0red.nodeList ∧ e.dst ∈ g0red.nodeList :=
  c5_strong_connectivity g0 g0red (by decide) (by rfl) 1 2 (by decide) (by decide)

/-- C6 (counterexample to the claim as stated): a 2021 record with the
unrecognized direction code 5 lands in none of the three direction buckets —
it is silently dropped, with no schema error; and a 2017 record with an
unrecognized direction string is assigned to the two-way bucket. -/
theorem c6_unrecognized_direction_counterexample :
    onewayFt2021 [row5] = [] ∧ onewayTf2021 [row5] = [] ∧ twoway2021 [row5] = [] ∧
    twoway2017 [sXY] = [sXY] := by
  decide

/-- C6 (amended): neither variant raises a schema error for an unrecognized
direction code; the 2021 variant silently drops any record whose code is
outside 1, 2, 3, 9 (it appears in no bucket), and the 2017 variant classifies
every record whose string is neither `"FT"` nor `"TF"` as two-way (`Both`). -/
theorem c6_unrecognized_direction_handling (r : Row2021) (s : Row2017)
    (h1 : r.simple_traffic_direction ≠ 1) (h2 : r.simple_traffic_direction ≠ 2)
    (h3 : r.simple_traffic_direction ≠ 3) (h9 : r.simple_traffic_direction ≠ 9)
    (hft : s.oneway ≠ some "FT") (htf : s.oneway ≠ some "TF") :
    onewayFt2021 [r] = [] ∧ onewayTf2021 [r] = [] ∧ twoway2021 [r] = [] ∧
    twoway2017 [s] = [s] := by
  have d1 : (r.simple_traffic_direction == 1) = false := beq_eq_false_iff_ne.2 h1
  have d2 : (r.simple_traffic_direction == 2) = false := beq_eq_false_iff_ne.2 h2
  have d3 : (r.simple_traffic_direction == 3) = false := beq_eq_false_iff_ne.2 h3
  have d9 : (r.simple_traffic_direction == 9) = false := beq_eq_false_iff_ne.2 h9
  have dft : (s.oneway == some "FT") = false := beq_eq_false_iff_ne.2 hft
  have dtf : (s.oneway == some "TF") = false := beq_eq_false_iff_ne.2 htf
  refine ⟨?_, ?_, ?_, ?_⟩ <;>
    simp [onewayFt2021, onewayTf2021, twoway2021, twoway2017, List.filter,
      d1, d2, d3, d9, dft, dtf]

/-- Witness for C6 at concrete unrecognized records of both variants. -/
theorem c6_unrecognized_direction_handling_witness :
    onewayFt2021 [row0] = [] ∧ onewayTf2021 [row0] = [] ∧ twoway2021 [row0] = [] ∧
    twoway2017 [sNone] = [sNone] :=
  c6_unrecognized_direction_handling row0 sNone (by decide) (by decide) (by decide)
    (by decide) (by decide) (by decide)

/-- C7: every synthesized reverse-direction edge — the backward copy of a
two-way record and the backward-only edge, in both variants — carries a
geometry that is exactly the reverse of the record's coordinate sequence. -/
theorem c7_reversed_geometry (r : Row2021) (s : Row2017) :
    (twowayTfEdge2021 r).geom = r.geom.reverse ∧
    (onewayTfEdge2021 r).geom = r.geom.reverse ∧
    (twowayTfEdge2017 s).geom = s.wkb_geometry.reverse ∧
    (onewayTfEdge2017 s).geom = s.wkb_geometry.reverse :=
  ⟨rfl, rfl, rfl, rfl⟩

/-- C8: with a lat/lon geofence, any vintage value that is not the string
`"2021"` and not the string `"2017"` (including the integers 2021 and 2017)
makes the reader raise the unsupported-vintage `TypeError` and return no
graph. -/
theorem c8_unsupported_vintage (db2021 : List Raw2021) (db2017 : List Raw2017)
    (c21 c17 : Option String) (v : Vintage) (xy : Bool)
    (h1 : v ≠ Vintage.str "2021") (h2 : v ≠ Vintage.str "2017") :
    read_tomtom_nxmap_from_sql db2021 db2017 c21 c17 LATLON_CRS v xy =
      Except.error (PyError.typeError vintageMsg) := by
  unfold read_tomtom_nxmap_from_sql
  rw [if_neg (by simp), if_neg h1, if_neg h2]

/-- Witness for C8: the integer 2021 is not the string `"2021"`, so even the
current vintage passed as an integer raises. -/
theorem c8_unsupported_vintage_witness :
    read_tomtom_nxmap_from_sql [] [] none none LATLON_CRS (Vintage.int 2021) true =
      Except.error (PyError.typeError vintageMsg) :=
  c8_unsupported_vintage [] [] none none (Vintage.int 2021) true
    (by decide) (by decide)

/-- C9: metadata tagging is pure decoration — it writes exactly the CRS
descriptor and the four field-name keys into the graph-level attribute dict
and leaves the node list and the keyed edge list (with all edge attributes)
unchanged. -/
theorem c9_tag_pure_decoration {α : Type} (g : NxGraph α) (crs : String) :
    (tagGraph crs g).nodeList = g.nodeList ∧
    (tagGraph crs g).edges = g.edges ∧
    (tagGraph crs g).graphAttrs =
      some ⟨crs, "kilometers", "minutes", "geom", "road_id"⟩ :=
  ⟨rfl, rfl, rfl⟩

/-- C10: whenever the geofence CRS differs from lat/lon (epsg:4326), the
reader raises the CRS `TypeError` — for every vintage value and every
database content, i.e. before any vintage dispatch or data retrieval. -/
theorem c10_crs_check_first (db2021 : List Raw2021) (db2017 : List Raw2017)
    (c21 c17 : Option String) (crs : String) (v : Vintage) (xy : Bool)
    (h : crs ≠ LATLON_CRS) :
    read_tomtom_nxmap_from_sql db2021 db2017 c21 c17 crs v xy =
      Except.error (PyError.typeError crsMsg) := by
  unfold read_tomtom_nxmap_from_sql
  rw [if_pos h]

/-- Witness for C10 at a projected geofence CRS and a valid vintage. -/
theorem c10_crs_check_first_witness :
    read_tomtom_nxmap_from_sql [] [] none none XY_CRS (Vintage.str "2021") true =
      Except.error (PyError.typeError crsMsg) :=
  c10_crs_check_first [] [] none none XY_CRS (Vintage.str "2021") true (by decide)
